import Mathlib

/-!
Shallow embedding of `src/src/core/model/simulator.cc` (the ns-3 `Simulator`
facade over the singleton `SimulatorImpl` engine).

The facade's process-wide mutable state (the static singleton pointer
returned by `PeekImpl`, and the time/node print hooks installed through
`LogSetTimePrinter` / `LogSetNodePrinter`) is modelled as an explicit
`FacadeState` record threaded through every operation.  Each facade
operation additionally emits a trace (`List FacadeAction`) recording, in
program order, the externally visible steps it performs (engine
construction, registration in the slot, scheduler installation, hook
install/uninstall, engine destruction/release, slot clearing), so that
ordering claims can be stated about the trace.

The engine class `SimulatorImpl` / `DefaultSimulatorImpl` is not part of
the sources; its operations are modelled from the specification (see the
`Modelled from the spec:` doc comments).  Engine instances carry a
model-level identity `engId`; lazy construction draws a fresh identity
from the facade's `nextEngId` counter, so that "the same engine instance"
and "a brand-new engine instance" are expressible.
-/

namespace ns3

/-- Virtual time: an integral tick count with total order (ns-3 `Time`
holds a signed 64-bit count; modelled as `Int`, with overflow out of the
claims' scope). -/
abbrev VTime := Int

/-- A pending event held by the engine: absolute scheduled time, execution
context, sequence id (`m_uid`), cancelled flag, an opaque callback token,
and a marker for the internal stop event produced by `Stop (delay)`. -/
structure Event where
  time : VTime
  context : Nat
  seq : Nat
  cancelled : Bool
  cb : Nat
  isStopEvent : Bool
  deriving Repr, DecidableEq

/-- The lightweight handle returned by the scheduling calls (ns-3
`EventId`: timestamp, context and uid). -/
structure EventId where
  ts : VTime
  context : Nat
  uid : Nat
  deriving Repr, DecidableEq

/-- Modelled from the spec: the engine (`SimulatorImpl`) sources are not
under src/, only the facade is.  Per the spec the engine owns one
scheduler, the current virtual time, the current execution context, a
monotonically increasing event-sequence counter, a stop flag, an
executed-event counter, the pending-event queue and a separate
destroy-phase list.  `engId` is a model-level instance identity. -/
structure EngineState where
  engId : Nat
  hasScheduler : Bool
  now : VTime
  context : Nat
  systemId : Nat
  nextSeq : Nat
  executed : Nat
  stopFlag : Bool
  pending : List Event
  destroyList : List Event
  deriving Repr, DecidableEq

/-- Modelled from the spec: a freshly constructed engine starts at the
epoch with an empty scheduler queue, zero executed events and no stop
request (`factory.Create<SimulatorImpl>` in `GetImpl`). -/
def freshEngine (id : Nat) : EngineState :=
  { engId := id, hasScheduler := false, now := 0, context := 0, systemId := 0,
    nextSeq := 0, executed := 0, stopFlag := false, pending := [], destroyList := [] }

/-- Modelled from the spec: `SetScheduler` installs a scheduler into the
engine, transferring pending events in order (so the queue is unchanged
here). -/
def EngineState.setScheduler (e : EngineState) : EngineState :=
  { e with hasScheduler := true }

/-- Modelled from the spec: `Schedule (delay, cb)` is fatal if the
resulting time would be earlier than now (negative delay), otherwise
inserts an event at `now + delay` with the current context and the next
sequence id, returning its handle.  `none` models the fatal abort. -/
def EngineState.schedule (e : EngineState) (delay : VTime) (cb : Nat) :
    Option (EngineState × EventId) :=
  if delay < 0 then none
  else
    let ev : Event := { time := e.now + delay, context := e.context, seq := e.nextSeq,
                        cancelled := false, cb := cb, isStopEvent := false }
    some ({ e with nextSeq := e.nextSeq + 1, pending := e.pending ++ [ev] },
          { ts := ev.time, context := ev.context, uid := ev.seq })

/-- Modelled from the spec: `ScheduleNow (cb)` inserts an event at the
current time with the current context and the next sequence id. -/
def EngineState.scheduleNow (e : EngineState) (cb : Nat) : EngineState × EventId :=
  let ev : Event := { time := e.now, context := e.context, seq := e.nextSeq,
                      cancelled := false, cb := cb, isStopEvent := false }
  ({ e with nextSeq := e.nextSeq + 1, pending := e.pending ++ [ev] },
   { ts := ev.time, context := ev.context, uid := ev.seq })

/-- Modelled from the spec: `ScheduleWithContext` is like `Schedule` but
records the given context instead of the caller's; it returns no handle. -/
def EngineState.scheduleWithContext (e : EngineState) (ctx : Nat) (delay : VTime)
    (cb : Nat) : Option EngineState :=
  if delay < 0 then none
  else
    let ev : Event := { time := e.now + delay, context := ctx, seq := e.nextSeq,
                        cancelled := false, cb := cb, isStopEvent := false }
    some { e with nextSeq := e.nextSeq + 1, pending := e.pending ++ [ev] }

/-- Modelled from the spec: `ScheduleDestroy` inserts into the
destroy-phase list, never the main scheduler queue. -/
def EngineState.scheduleDestroy (e : EngineState) (cb : Nat) : EngineState × EventId :=
  let ev : Event := { time := e.now, context := e.context, seq := e.nextSeq,
                      cancelled := false, cb := cb, isStopEvent := false }
  ({ e with nextSeq := e.nextSeq + 1, destroyList := e.destroyList ++ [ev] },
   { ts := ev.time, context := ev.context, uid := ev.seq })

/-- Modelled from the spec: `Cancel` is lazy cancellation — it sets the
cancelled flag on the referenced event if it is still pending, leaving it
physically in the queue. -/
def EngineState.cancel (e : EngineState) (id : EventId) : EngineState :=
  { e with pending := e.pending.map fun ev =>
      if ev.seq == id.uid then { ev with cancelled := true } else ev }

/-- Modelled from the spec: `Remove` is eager cancellation — it physically
deletes the referenced event from the queue if pending, a no-op
otherwise. -/
def EngineState.remove (e : EngineState) (id : EventId) : EngineState :=
  { e with pending := e.pending.filter fun ev => ev.seq != id.uid }

/-- Modelled from the spec: `IsExpired` is true unless the handle refers
to a currently pending, not-cancelled event. -/
def EngineState.isExpired (e : EngineState) (id : EventId) : Bool :=
  !(e.pending.any fun ev => ev.seq == id.uid && !ev.cancelled)

/-- Modelled from the spec: `GetDelayLeft` returns `event.time - now` for
a pending live event and the zero sentinel for an expired handle. -/
def EngineState.getDelayLeft (e : EngineState) (id : EventId) : VTime :=
  match e.pending.find? (fun ev => ev.seq == id.uid && !ev.cancelled) with
  | some ev => ev.time - e.now
  | none => 0

/-- Modelled from the spec: `IsFinished` is true if the scheduler queue is
empty or the stop flag is set. -/
def EngineState.isFinished (e : EngineState) : Bool :=
  e.pending.isEmpty || e.stopFlag

/-- Modelled from the spec: `Stop ()` sets the stop flag checked between
loop iterations. -/
def EngineState.stopNow (e : EngineState) : EngineState :=
  { e with stopFlag := true }

/-- Modelled from the spec: `Stop (delay)` schedules an internal event at
`now + delay` whose execution sets the stop flag. -/
def EngineState.stopWithDelay (e : EngineState) (delay : VTime) : EngineState :=
  let ev : Event := { time := e.now + delay, context := e.context, seq := e.nextSeq,
                      cancelled := false, cb := 0, isStopEvent := true }
  { e with nextSeq := e.nextSeq + 1, pending := e.pending ++ [ev] }

/-- Strict (time, sequence id) ordering on events: time primary, sequence
id as tie-break. -/
def earlier (a b : Event) : Bool :=
  decide (a.time < b.time) || (a.time == b.time && decide (a.seq < b.seq))

/-- Select the earliest event (smallest (time, seq)) among `ev :: l`,
returning it together with the remaining events. -/
def selectEarliest (ev : Event) (l : List Event) : Event × List Event :=
  match l with
  | [] => (ev, [])
  | x :: xs =>
    if earlier x ev then
      let (m, rest) := selectEarliest x xs
      (m, ev :: rest)
    else
      let (m, rest) := selectEarliest ev xs
      (m, x :: rest)

/-- Modelled from the spec: the state change of executing one popped
event `p.1` (with remaining queue `p.2`): advance the clock and context;
a cancelled event is discarded without counting; otherwise the callback
runs once and the executed counter increments (a stop event's execution
sets the stop flag). -/
def execEvent (e : EngineState) (p : Event × List Event) : EngineState :=
  if p.1.cancelled then
    { e with pending := p.2, now := p.1.time, context := p.1.context }
  else if p.1.isStopEvent then
    { e with pending := p.2, now := p.1.time, context := p.1.context,
             executed := e.executed + 1, stopFlag := true }
  else
    { e with pending := p.2, now := p.1.time, context := p.1.context,
             executed := e.executed + 1 }

/-- Modelled from the spec: one run-loop pass with explicit fuel.  While
the queue is non-empty and the stop flag is unset: pop the earliest
(time, seq) event; fatal (`none`) if its time is before now; otherwise
execute it via `execEvent`.  Callback bodies are opaque tokens in this
model and schedule nothing, so queue length is sufficient fuel. -/
def runAux : Nat → EngineState → Option EngineState
  | 0, e => some e
  | Nat.succ n, e =>
    if e.stopFlag then some e
    else
      match e.pending with
      | [] => some e
      | x :: xs =>
        if (selectEarliest x xs).1.time < e.now then none
        else runAux n (execEvent e (selectEarliest x xs))

/-- Modelled from the spec: `Run` drives the loop until the queue is empty
or the stop flag is set; `none` models the fatal time-went-backward
abort. -/
def EngineState.runLoop (e : EngineState) : Option EngineState :=
  runAux e.pending.length e

/-- Modelled from the spec: the largest representable virtual time,
returned by `GetMaximumSimulationTime` as a "never" sentinel. -/
def maxSimulationTime : VTime := 2 ^ 63 - 1

/-- Externally visible steps performed by the facade, recorded in program
order so that ordering claims can be stated. -/
inductive FacadeAction where
  | constructEngine (id : Nat)
  | registerEngine (id : Nat)
  | installScheduler (id : Nat)
  | installTimePrinter
  | installNodePrinter
  | uninstallTimePrinter
  | uninstallNodePrinter
  | engineDestroy (id : Nat)
  | engineUnref (id : Nat)
  | clearSlot
  deriving Repr, DecidableEq

/-- The facade's process-wide static state: the singleton slot (the
pointer returned by `PeekImpl`, `none` = null), whether the time/node
print hooks are installed (`LogSetTimePrinter` / `LogSetNodePrinter`
non-null), and a counter supplying fresh engine identities to lazy
construction. -/
structure FacadeState where
  impl : Option EngineState
  timePrinter : Bool
  nodePrinter : Bool
  nextEngId : Nat
  deriving Repr, DecidableEq

/-- Program start: the static `impl` pointer is null and no hooks are
installed — no engine is constructed eagerly. -/
def initState : FacadeState :=
  { impl := none, timePrinter := false, nodePrinter := false, nextEngId := 0 }

/-- `GetImpl` (simulator.cc lines 100-135): return the singleton if it
exists; otherwise construct the engine, register it in the slot, install
its scheduler through the slot pointer, and only then install the time
and node print hooks. -/
def GetImpl (st : FacadeState) : List FacadeAction × FacadeState × EngineState :=
  match st.impl with
  | some e => ([], st, e)
  | none =>
    let e0 := freshEngine st.nextEngId
    let e1 := e0.setScheduler
    ([FacadeAction.constructEngine e0.engId, FacadeAction.registerEngine e0.engId,
      FacadeAction.installScheduler e0.engId, FacadeAction.installTimePrinter,
      FacadeAction.installNodePrinter],
     { st with impl := some e1, timePrinter := true, nodePrinter := true,
               nextEngId := st.nextEngId + 1 },
     e1)

/-- `Simulator::Destroy` (lines 137-157): return immediately when the slot
is null; otherwise uninstall the time and node print hooks, then destroy
and release the engine and clear the slot. -/
def Simulator.Destroy (st : FacadeState) : List FacadeAction × FacadeState :=
  match st.impl with
  | none => ([], st)
  | some e =>
    ([FacadeAction.uninstallTimePrinter, FacadeAction.uninstallNodePrinter,
      FacadeAction.engineDestroy e.engId, FacadeAction.engineUnref e.engId,
      FacadeAction.clearSlot],
     { st with impl := none, timePrinter := false, nodePrinter := false })

/-- `Simulator::SetScheduler` (lines 159-164): forwards to the engine
obtained from `GetImpl`. -/
def Simulator.SetScheduler (st : FacadeState) : List FacadeAction × FacadeState :=
  let r := GetImpl st
  (r.1, { r.2.1 with impl := some r.2.2.setScheduler })

/-- `Simulator::IsFinished` (lines 166-171): forwards to
`GetImpl ()->IsFinished ()` — note that this goes through `GetImpl`,
which constructs the engine if the slot is null. -/
def Simulator.IsFinished (st : FacadeState) : List FacadeAction × FacadeState × Bool :=
  let r := GetImpl st
  (r.1, r.2.1, r.2.2.isFinished)

/-- `Simulator::Run` (lines 173-179): clears marked times (external
bookkeeping with no effect on this state) and drives the engine's run
loop; `none` models the fatal abort inside the loop. -/
def Simulator.Run (st : FacadeState) : Option (List FacadeAction × FacadeState) :=
  let r := GetImpl st
  match r.2.2.runLoop with
  | none => none
  | some e2 => some (r.1, { r.2.1 with impl := some e2 })

/-- `Simulator::Stop` (lines 181-187): forwards to the engine. -/
def Simulator.Stop (st : FacadeState) : List FacadeAction × FacadeState :=
  let r := GetImpl st
  (r.1, { r.2.1 with impl := some r.2.2.stopNow })

/-- `Simulator::Stop (delay)` (lines 189-194): forwards to the engine. -/
def Simulator.StopWithDelay (st : FacadeState) (delay : VTime) :
    List FacadeAction × FacadeState :=
  let r := GetImpl st
  (r.1, { r.2.1 with impl := some (r.2.2.stopWithDelay delay) })

/-- `Simulator::Now` (lines 196-203): forwards to the engine. -/
def Simulator.Now (st : FacadeState) : List FacadeAction × FacadeState × VTime :=
  let r := GetImpl st
  (r.1, r.2.1, r.2.2.now)

/-- `Simulator::GetDelayLeft` (lines 205-210): forwards to the engine. -/
def Simulator.GetDelayLeft (st : FacadeState) (id : EventId) :
    List FacadeAction × FacadeState × VTime :=
  let r := GetImpl st
  (r.1, r.2.1, r.2.2.getDelayLeft id)

/-- `Simulator::DoSchedule` (lines 236-243): forwards to
`GetImpl ()->Schedule (time, impl)` (the DES-metrics trace hook is an
observation with no effect on control flow). -/
def Simulator.DoSchedule (st : FacadeState) (delay : VTime) (cb : Nat) :
    Option (List FacadeAction × FacadeState × EventId) :=
  let r := GetImpl st
  match r.2.2.schedule delay cb with
  | none => none
  | some p => some (r.1, { r.2.1 with impl := some p.1 }, p.2)

/-- `Simulator::Schedule` (lines 212-216): calls `DoSchedule`. -/
def Simulator.Schedule (st : FacadeState) (delay : VTime) (cb : Nat) :
    Option (List FacadeAction × FacadeState × EventId) :=
  Simulator.DoSchedule st delay cb

/-- `Simulator::DoScheduleNow` (lines 244-251): forwards to
`GetImpl ()->ScheduleNow (impl)`. -/
def Simulator.DoScheduleNow (st : FacadeState) (cb : Nat) :
    List FacadeAction × FacadeState × EventId :=
  let r := GetImpl st
  let p := r.2.2.scheduleNow cb
  (r.1, { r.2.1 with impl := some p.1 }, p.2)

/-- `Simulator::ScheduleNow` (lines 218-222): calls `DoScheduleNow`. -/
def Simulator.ScheduleNow (st : FacadeState) (cb : Nat) :
    List FacadeAction × FacadeState × EventId :=
  Simulator.DoScheduleNow st cb

/-- `Simulator::ScheduleWithContext` (lines 223-230): forwards to the
engine. -/
def Simulator.ScheduleWithContext (st : FacadeState) (ctx : Nat) (delay : VTime)
    (cb : Nat) : Option (List FacadeAction × FacadeState) :=
  let r := GetImpl st
  match r.2.2.scheduleWithContext ctx delay cb with
  | none => none
  | some e2 => some (r.1, { r.2.1 with impl := some e2 })

/-- `Simulator::DoScheduleDestroy` (lines 252-256): forwards to the
engine. -/
def Simulator.DoScheduleDestroy (st : FacadeState) (cb : Nat) :
    List FacadeAction × FacadeState × EventId :=
  let r := GetImpl st
  let p := r.2.2.scheduleDestroy cb
  (r.1, { r.2.1 with impl := some p.1 }, p.2)

/-- `Simulator::ScheduleDestroy` (lines 231-235): calls
`DoScheduleDestroy`. -/
def Simulator.ScheduleDestroy (st : FacadeState) (cb : Nat) :
    List FacadeAction × FacadeState × EventId :=
  Simulator.DoScheduleDestroy st cb

/-- `Simulator::Remove` (lines 259-267): returns immediately when the
slot pointer is null, otherwise forwards to the engine. -/
def Simulator.Remove (st : FacadeState) (id : EventId) :
    List FacadeAction × FacadeState :=
  match st.impl with
  | none => ([], st)
  | some _ =>
    let r := GetImpl st
    (r.1, { r.2.1 with impl := some (r.2.2.remove id) })

/-- `Simulator::Cancel` (lines 269-277): returns immediately when the
slot pointer is null, otherwise forwards to the engine. -/
def Simulator.Cancel (st : FacadeState) (id : EventId) :
    List FacadeAction × FacadeState :=
  match st.impl with
  | none => ([], st)
  | some _ =>
    let r := GetImpl st
    (r.1, { r.2.1 with impl := some (r.2.2.cancel id) })

/-- `Simulator::IsExpired` (lines 279-287): returns true when the slot
pointer is null, otherwise forwards to the engine. -/
def Simulator.IsExpired (st : FacadeState) (id : EventId) :
    List FacadeAction × FacadeState × Bool :=
  match st.impl with
  | none => ([], st, true)
  | some _ =>
    let r := GetImpl st
    (r.1, r.2.1, r.2.2.isExpired id)

/-- `Simulator::GetMaximumSimulationTime` (lines 294-299): forwards to
the engine. -/
def Simulator.GetMaximumSimulationTime (st : FacadeState) :
    List FacadeAction × FacadeState × VTime :=
  let r := GetImpl st
  (r.1, r.2.1, maxSimulationTime)

/-- `Simulator::GetContext` (lines 301-305): forwards to the engine. -/
def Simulator.GetContext (st : FacadeState) : List FacadeAction × FacadeState × Nat :=
  let r := GetImpl st
  (r.1, r.2.1, r.2.2.context)

/-- `Simulator::GetEventCount` (lines 307-311): forwards to the engine. -/
def Simulator.GetEventCount (st : FacadeState) : List FacadeAction × FacadeState × Nat :=
  let r := GetImpl st
  (r.1, r.2.1, r.2.2.executed)

/-- `Simulator::GetSystemId` (lines 313-326): forwards to the engine only
when the slot pointer is non-null, otherwise returns 0 without
constructing anything. -/
def Simulator.GetSystemId (st : FacadeState) : List FacadeAction × FacadeState × Nat :=
  match st.impl with
  | some _ =>
    let r := GetImpl st
    (r.1, r.2.1, r.2.2.systemId)
  | none => ([], st, 0)

/-- `Simulator::SetImplementation` (lines 328-352): fatal (`none`) when
the slot pointer is already non-null; otherwise registers the given
engine in the slot, installs the default scheduler into it through the
slot, and then installs the time and node print hooks. -/
def Simulator.SetImplementation (st : FacadeState) (engine : EngineState) :
    Option (List FacadeAction × FacadeState) :=
  match st.impl with
  | some _ => none
  | none =>
    some ([FacadeAction.registerEngine engine.engId,
           FacadeAction.installScheduler engine.engId,
           FacadeAction.installTimePrinter, FacadeAction.installNodePrinter],
          { st with impl := some engine.setScheduler,
                    timePrinter := true, nodePrinter := true })

/-- `Simulator::GetImplementation` (lines 354-359): returns the engine
obtained from `GetImpl`. -/
def Simulator.GetImplementation (st : FacadeState) :
    List FacadeAction × FacadeState × EngineState :=
  GetImpl st

/-- One facade operation among those that forward to the engine (for
quantifying over "every facade operation" between construction and
`Destroy`). -/
inductive FacadeOp where
  | setScheduler
  | isFinished
  | runOp
  | stopOp
  | stopWithDelay (d : VTime)
  | nowOp
  | getDelayLeft (id : EventId)
  | schedule (d : VTime) (cb : Nat)
  | scheduleNow (cb : Nat)
  | scheduleWithContext (ctx : Nat) (d : VTime) (cb : Nat)
  | scheduleDestroy (cb : Nat)
  | remove (id : EventId)
  | cancel (id : EventId)
  | isExpired (id : EventId)
  | getMaximumSimulationTime
  | getContext
  | getEventCount
  | getSystemId
  | getImplementation
  deriving Repr

/-- The facade state after one operation; `none` models a fatal abort. -/
def applyOp : FacadeOp → FacadeState → Option FacadeState
  | FacadeOp.setScheduler, st => some (Simulator.SetScheduler st).2
  | FacadeOp.isFinished, st => some (Simulator.IsFinished st).2.1
  | FacadeOp.runOp, st => (Simulator.Run st).map fun p => p.2
  | FacadeOp.stopOp, st => some (Simulator.Stop st).2
  | FacadeOp.stopWithDelay d, st => some (Simulator.StopWithDelay st d).2
  | FacadeOp.nowOp, st => some (Simulator.Now st).2.1
  | FacadeOp.getDelayLeft id, st => some (Simulator.GetDelayLeft st id).2.1
  | FacadeOp.schedule d cb, st => (Simulator.Schedule st d cb).map fun p => p.2.1
  | FacadeOp.scheduleNow cb, st => some (Simulator.ScheduleNow st cb).2.1
  | FacadeOp.scheduleWithContext ctx d cb, st =>
      (Simulator.ScheduleWithContext st ctx d cb).map fun p => p.2
  | FacadeOp.scheduleDestroy cb, st => some (Simulator.ScheduleDestroy st cb).2.1
  | FacadeOp.remove id, st => some (Simulator.Remove st id).2
  | FacadeOp.cancel id, st => some (Simulator.Cancel st id).2
  | FacadeOp.isExpired id, st => some (Simulator.IsExpired st id).2.1
  | FacadeOp.getMaximumSimulationTime, st => some (Simulator.GetMaximumSimulationTime st).2.1
  | FacadeOp.getContext, st => some (Simulator.GetContext st).2.1
  | FacadeOp.getEventCount, st => some (Simulator.GetEventCount st).2.1
  | FacadeOp.getSystemId, st => some (Simulator.GetSystemId st).2.1
  | FacadeOp.getImplementation, st => some (Simulator.GetImplementation st).2.1

/-- A sample facade state holding an engine, used to instantiate
hypotheses of the claim theorems. -/
def sampleState : FacadeState :=
  { impl := some (freshEngine 4), timePrinter := true, nodePrinter := true,
    nextEngId := 5 }

theorem GetImpl_someEq (st : FacadeState) (e : EngineState) (h : st.impl = some e) :
    GetImpl st = ([], st, e) := by
  simp [GetImpl, h]

theorem GetImpl_noneEq (st : FacadeState) (h : st.impl = none) :
    GetImpl st =
      ([FacadeAction.constructEngine st.nextEngId, FacadeAction.registerEngine st.nextEngId,
        FacadeAction.installScheduler st.nextEngId, FacadeAction.installTimePrinter,
        FacadeAction.installNodePrinter],
       { st with impl := some (freshEngine st.nextEngId).setScheduler,
                 timePrinter := true, nodePrinter := true, nextEngId := st.nextEngId + 1 },
       (freshEngine st.nextEngId).setScheduler) := by
  simp [GetImpl, h, freshEngine, EngineState.setScheduler]

theorem execEvent_engId (e : EngineState) (p : Event × List Event) :
    (execEvent e p).engId = e.engId := by
  unfold execEvent
  split_ifs <;> rfl

theorem runAux_engId (n : Nat) :
    ∀ e e2 : EngineState, runAux n e = some e2 → e2.engId = e.engId := by
  induction n with
  | zero =>
    intro e e2 h
    simp [runAux] at h
    simp [← h]
  | succ n ih =>
    intro e e2 h
    unfold runAux at h
    split at h
    · simp at h; simp [← h]
    · split at h
      · simp at h; simp [← h]
      · split at h
        · exact absurd h (by simp)
        · rw [ih _ _ h, execEvent_engId]

/-- Claim C1: `Simulator::SetImplementation` fails with a fatal condition
when the singleton slot is already non-null (an engine was already
constructed), and otherwise installs the caller-provided engine (with the
default scheduler set on it) as the singleton. -/
theorem claim_C1_setImplementation (st : FacadeState) (engine : EngineState) :
    (st.impl ≠ none → Simulator.SetImplementation st engine = none) ∧
    (st.impl = none →
      Simulator.SetImplementation st engine =
        some ([FacadeAction.registerEngine engine.engId,
               FacadeAction.installScheduler engine.engId,
               FacadeAction.installTimePrinter, FacadeAction.installNodePrinter],
              { st with impl := some engine.setScheduler,
                        timePrinter := true, nodePrinter := true })) := by
  cases h : st.impl <;> simp [Simulator.SetImplementation, h]

/-- Witness for claim C1 at concrete states. -/
theorem claim_C1_setImplementation_witness :
    Simulator.SetImplementation sampleState (freshEngine 7) = none ∧
    Simulator.SetImplementation initState (freshEngine 7) =
      some ([FacadeAction.registerEngine 7, FacadeAction.installScheduler 7,
             FacadeAction.installTimePrinter, FacadeAction.installNodePrinter],
            { initState with impl := some (freshEngine 7).setScheduler,
                             timePrinter := true, nodePrinter := true }) := by
  constructor
  · exact (claim_C1_setImplementation sampleState (freshEngine 7)).1 (by decide)
  · exact (claim_C1_setImplementation initState (freshEngine 7)).2 rfl

/-- Claim C2 counterexample: at program start, when no engine has ever
been constructed, `Simulator::IsFinished` force-constructs the engine —
the singleton slot is non-null after the call, refuting "does not force
construction of the Engine" for the emptiness check. -/
theorem claim_C2_counterexample :
    (Simulator.IsFinished initState).2.1.impl ≠ none := by
  decide

/-- Claim C2 (amended): when no engine has ever been constructed,
`GetSystemId` returns the benign default 0 without constructing the
engine and without changing any state; `IsFinished`, by contrast,
force-constructs the engine through `GetImpl` (the slot becomes non-null)
and returns true for the fresh empty engine. -/
theorem claim_C2_queries (st : FacadeState) (h : st.impl = none) :
    Simulator.GetSystemId st = ([], st, 0) ∧
    (Simulator.IsFinished st).2.1.impl = some (freshEngine st.nextEngId).setScheduler ∧
    (Simulator.IsFinished st).2.2 = true := by
  refine ⟨?_, ?_, ?_⟩ <;>
    simp [Simulator.GetSystemId, Simulator.IsFinished, GetImpl, h, freshEngine,
          EngineState.setScheduler, EngineState.isFinished]

/-- Witness for claim C2 (amended) at the initial state. -/
theorem claim_C2_queries_witness :
    Simulator.GetSystemId initState = ([], initState, 0) ∧
    (Simulator.IsFinished initState).2.1.impl = some (freshEngine 0).setScheduler ∧
    (Simulator.IsFinished initState).2.2 = true :=
  claim_C2_queries initState rfl

/-- Claim C3: `Simulator::IsExpired` returns true when no engine has ever
been constructed, without constructing one (the state is unchanged and no
action is performed). -/
theorem claim_C3_isExpired (st : FacadeState) (id : EventId) (h : st.impl = none) :
    Simulator.IsExpired st id = ([], st, true) := by
  simp [Simulator.IsExpired, h]

/-- Witness for claim C3 at a concrete state and handle. -/
theorem claim_C3_isExpired_witness :
    Simulator.IsExpired initState { ts := 3, context := 0, uid := 7 } =
      ([], initState, true) :=
  claim_C3_isExpired initState { ts := 3, context := 0, uid := 7 } rfl

/-- Claim C4: `Simulator::Cancel` and `Simulator::Remove` called when no
engine has ever been constructed are safe no-ops: the state is unchanged,
no action is performed, and no engine is constructed (and the operations
are total, so no error is raised). -/
theorem claim_C4_cancelRemove (st : FacadeState) (id : EventId) (h : st.impl = none) :
    Simulator.Cancel st id = ([], st) ∧ Simulator.Remove st id = ([], st) := by
  simp [Simulator.Cancel, Simulator.Remove, h]

/-- Witness for claim C4 at a concrete state and handle. -/
theorem claim_C4_cancelRemove_witness :
    Simulator.Cancel initState { ts := 3, context := 0, uid := 7 } = ([], initState) ∧
    Simulator.Remove initState { ts := 3, context := 0, uid := 7 } = ([], initState) :=
  claim_C4_cancelRemove initState { ts := 3, context := 0, uid := 7 } rfl

/-- Claim C5: in the lazy-construction path the trace is exactly
construct, register, install scheduler, then install the time and node
print hooks; in `Destroy` (with an engine present) the trace is exactly
uninstall the time and node print hooks, then destroy and release the
engine and clear the slot. -/
theorem claim_C5_ordering (st st2 : FacadeState) (e : EngineState) :
    (st.impl = none →
      (GetImpl st).1 =
        [FacadeAction.constructEngine st.nextEngId, FacadeAction.registerEngine st.nextEngId,
         FacadeAction.installScheduler st.nextEngId, FacadeAction.installTimePrinter,
         FacadeAction.installNodePrinter]) ∧
    (st2.impl = some e →
      (Simulator.Destroy st2).1 =
        [FacadeAction.uninstallTimePrinter, FacadeAction.uninstallNodePrinter,
         FacadeAction.engineDestroy e.engId, FacadeAction.engineUnref e.engId,
         FacadeAction.clearSlot]) := by
  constructor <;> intro h <;> simp [GetImpl, Simulator.Destroy, h, freshEngine]

/-- Witness for claim C5 at concrete states. -/
theorem claim_C5_ordering_witness :
    (GetImpl initState).1 =
      [FacadeAction.constructEngine 0, FacadeAction.registerEngine 0,
       FacadeAction.installScheduler 0, FacadeAction.installTimePrinter,
       FacadeAction.installNodePrinter] ∧
    (Simulator.Destroy sampleState).1 =
      [FacadeAction.uninstallTimePrinter, FacadeAction.uninstallNodePrinter,
       FacadeAction.engineDestroy 4, FacadeAction.engineUnref 4,
       FacadeAction.clearSlot] :=
  ⟨(claim_C5_ordering initState sampleState (freshEngine 4)).1 rfl,
   (claim_C5_ordering initState sampleState (freshEngine 4)).2 rfl⟩

/-- Claim C6: after `Destroy` the singleton slot is null, and the next
operation that needs the engine constructs a brand-new one (the fresh
default engine with a new identity and time at the epoch), not the
destroyed instance. -/
theorem claim_C6_restart (st : FacadeState) (e : EngineState)
    (h : st.impl = some e) (hid : e.engId < st.nextEngId) :
    (Simulator.Destroy st).2.impl = none ∧
    (GetImpl (Simulator.Destroy st).2).2.1.impl =
      some (freshEngine st.nextEngId).setScheduler ∧
    (GetImpl (Simulator.Destroy st).2).2.2.engId ≠ e.engId ∧
    (GetImpl (Simulator.Destroy st).2).2.2.now = 0 := by
  refine ⟨?_, ?_, ?_, ?_⟩ <;>
    simp [Simulator.Destroy, h, GetImpl, freshEngine, EngineState.setScheduler]
  omega

/-- Witness for claim C6 at a concrete state. -/
theorem claim_C6_restart_witness :
    (Simulator.Destroy sampleState).2.impl = none ∧
    (GetImpl (Simulator.Destroy sampleState).2).2.1.impl =
      some (freshEngine 5).setScheduler ∧
    (GetImpl (Simulator.Destroy sampleState).2).2.2.engId ≠ (freshEngine 4).engId ∧
    (GetImpl (Simulator.Destroy sampleState).2).2.2.now = 0 :=
  claim_C6_restart sampleState (freshEngine 4) rfl (by decide)

/-- Claim C8: for every callback, `Simulator::ScheduleNow` is
observationally equivalent to `Simulator::Schedule` with delay 0: same
trace, same resulting facade and engine state, and an identical handle. -/
theorem claim_C8_scheduleNow (st : FacadeState) (cb : Nat) :
    Simulator.Schedule st 0 cb = some (Simulator.ScheduleNow st cb) := by
  simp [Simulator.Schedule, Simulator.DoSchedule, Simulator.ScheduleNow,
        Simulator.DoScheduleNow, EngineState.schedule, EngineState.scheduleNow]

/-- Claim C9: `Simulator::Destroy` called when no engine has ever been
constructed is a safe no-op: the state (including the print hooks) is
unchanged and no action is performed. -/
theorem claim_C9_destroyNoop (st : FacadeState) (h : st.impl = none) :
    Simulator.Destroy st = ([], st) := by
  simp [Simulator.Destroy, h]

/-- Witness for claim C9 at the initial state. -/
theorem claim_C9_destroyNoop_witness :
    Simulator.Destroy initState = ([], initState) :=
  claim_C9_destroyNoop initState rfl

/-- Claim C10: after `Destroy`, `SetImplementation` does not hit the
fatal condition: it installs the new engine as the singleton with the
default scheduler set on it. -/
theorem claim_C10_reinstall (st : FacadeState) (engine : EngineState) :
    Simulator.SetImplementation (Simulator.Destroy st).2 engine =
      some ([FacadeAction.registerEngine engine.engId,
             FacadeAction.installScheduler engine.engId,
             FacadeAction.installTimePrinter, FacadeAction.installNodePrinter],
            { impl := some engine.setScheduler, timePrinter := true,
              nodePrinter := true, nextEngId := st.nextEngId }) := by
  cases h : st.impl <;> simp [Simulator.Destroy, Simulator.SetImplementation, h]

theorem schedule_engId (e : EngineState) (d : VTime) (cb : Nat)
    (p : EngineState × EventId) (h : e.schedule d cb = some p) :
    p.1.engId = e.engId := by
  unfold EngineState.schedule at h
  split at h
  · exact absurd h (by simp)
  · injection h with h
    subst h
    rfl

theorem swc_engId (e : EngineState) (ctx : Nat) (d : VTime) (cb : Nat)
    (e2 : EngineState) (h : e.scheduleWithContext ctx d cb = some e2) :
    e2.engId = e.engId := by
  unfold EngineState.scheduleWithContext at h
  split at h
  · exact absurd h (by simp)
  · injection h with h
    subst h
    rfl

theorem runLoop_engId (e e2 : EngineState) (h : e.runLoop = some e2) :
    e2.engId = e.engId :=
  runAux_engId e.pending.length e e2 h

/-- Claim C7: the facade owns at most one engine at any time: at program
start no engine exists (construction is never eager); when the slot is
empty, a facade operation either leaves the state untouched (the
null-guarded operations) or constructs the engine carrying the fresh
identity; and when an engine is present, every engine-forwarding facade
operation (anything up to the next `Destroy`) leaves an engine with the
same identity in the slot — it forwards to that same instance. -/
theorem claim_C7_singleton :
    initState.impl = none ∧
    (∀ (op : FacadeOp) (st : FacadeState) (e : EngineState) (st2 : FacadeState),
      st.impl = some e → applyOp op st = some st2 →
      ∃ e2, st2.impl = some e2 ∧ e2.engId = e.engId) ∧
    (∀ (op : FacadeOp) (st : FacadeState) (st2 : FacadeState),
      st.impl = none → applyOp op st = some st2 →
      st2 = st ∨ ∃ e2, st2.impl = some e2 ∧ e2.engId = st.nextEngId) := by
  refine ⟨rfl, ?_, ?_⟩
  · intro op st e st2 h ha
    cases op with
    | setScheduler =>
      simp only [applyOp, Simulator.SetScheduler, GetImpl_someEq st e h,
                 Option.some.injEq] at ha
      subst ha
      exact ⟨_, rfl, rfl⟩
    | isFinished =>
      simp only [applyOp, Simulator.IsFinished, GetImpl_someEq st e h,
                 Option.some.injEq] at ha
      subst ha
      exact ⟨e, h, rfl⟩
    | runOp =>
      simp only [applyOp, Simulator.Run, GetImpl_someEq st e h] at ha
      cases hr : e.runLoop with
      | none => rw [hr] at ha; simp at ha
      | some er =>
        rw [hr] at ha
        simp only [Option.map_some', Option.some.injEq] at ha
        subst ha
        exact ⟨er, rfl, runLoop_engId e er hr⟩
    | stopOp =>
      simp only [applyOp, Simulator.Stop, GetImpl_someEq st e h,
                 Option.some.injEq] at ha
      subst ha
      exact ⟨_, rfl, rfl⟩
    | stopWithDelay d =>
      simp only [applyOp, Simulator.StopWithDelay, GetImpl_someEq st e h,
                 Option.some.injEq] at ha
      subst ha
      exact ⟨_, rfl, rfl⟩
    | nowOp =>
      simp only [applyOp, Simulator.Now, GetImpl_someEq st e h,
                 Option.some.injEq] at ha
      subst ha
      exact ⟨e, h, rfl⟩
    | getDelayLeft id =>
      simp only [applyOp, Simulator.GetDelayLeft, GetImpl_someEq st e h,
                 Option.some.injEq] at ha
      subst ha
      exact ⟨e, h, rfl⟩
    | schedule d cb =>
      simp only [applyOp, Simulator.Schedule, Simulator.DoSchedule,
                 GetImpl_someEq st e h] at ha
      cases hs : e.schedule d cb with
      | none => rw [hs] at ha; simp at ha
      | some p =>
        rw [hs] at ha
        simp only [Option.map_some', Option.some.injEq] at ha
        subst ha
        exact ⟨p.1, rfl, schedule_engId e d cb p hs⟩
    | scheduleNow cb =>
      simp only [applyOp, Simulator.ScheduleNow, Simulator.DoScheduleNow,
                 GetImpl_someEq st e h, Option.some.injEq] at ha
      subst ha
      exact ⟨_, rfl, rfl⟩
    | scheduleWithContext ctx d cb =>
      simp only [applyOp, Simulator.ScheduleWithContext, GetImpl_someEq st e h] at ha
      cases hs : e.scheduleWithContext ctx d cb with
      | none => rw [hs] at ha; simp at ha
      | some e2c =>
        rw [hs] at ha
        simp only [Option.map_some', Option.some.injEq] at ha
        subst ha
        exact ⟨e2c, rfl, swc_engId e ctx d cb e2c hs⟩
    | scheduleDestroy cb =>
      simp only [applyOp, Simulator.ScheduleDestroy, Simulator.DoScheduleDestroy,
                 GetImpl_someEq st e h, Option.some.injEq] at ha
      subst ha
      exact ⟨_, rfl, rfl⟩
    | remove id =>
      simp only [applyOp, Simulator.Remove, h, GetImpl_someEq st e h,
                 Option.some.injEq] at ha
      subst ha
      exact ⟨_, rfl, rfl⟩
    | cancel id =>
      simp only [applyOp, Simulator.Cancel, h, GetImpl_someEq st e h,
                 Option.some.injEq] at ha
      subst ha
      exact ⟨_, rfl, rfl⟩
    | isExpired id =>
      simp only [applyOp, Simulator.IsExpired, h, GetImpl_someEq st e h,
                 Option.some.injEq] at ha
      subst ha
      exact ⟨e, h, rfl⟩
    | getMaximumSimulationTime =>
      simp only [applyOp, Simulator.GetMaximumSimulationTime, GetImpl_someEq st e h,
                 Option.some.injEq] at ha
      subst ha
      exact ⟨e, h, rfl⟩
    | getContext =>
      simp only [applyOp, Simulator.GetContext, GetImpl_someEq st e h,
                 Option.some.injEq] at ha
      subst ha
      exact ⟨e, h, rfl⟩
    | getEventCount =>
      simp only [applyOp, Simulator.GetEventCount, GetImpl_someEq st e h,
                 Option.some.injEq] at ha
      subst ha
      exact ⟨e, h, rfl⟩
    | getSystemId =>
      simp only [applyOp, Simulator.GetSystemId, h, GetImpl_someEq st e h,
                 Option.some.injEq] at ha
      subst ha
      exact ⟨e, h, rfl⟩
    | getImplementation =>
      simp only [applyOp, Simulator.GetImplementation, GetImpl_someEq st e h,
                 Option.some.injEq] at ha
      subst ha
      exact ⟨e, h, rfl⟩
  · intro op st st2 h ha
    cases op with
    | setScheduler =>
      simp only [applyOp, Simulator.SetScheduler, GetImpl_noneEq st h,
                 Option.some.injEq] at ha
      subst ha
      exact Or.inr ⟨_, rfl, rfl⟩
    | isFinished =>
      simp only [applyOp, Simulator.IsFinished, GetImpl_noneEq st h,
                 Option.some.injEq] at ha
      subst ha
      exact Or.inr ⟨_, rfl, rfl⟩
    | runOp =>
      simp only [applyOp, Simulator.Run, GetImpl_noneEq st h] at ha
      cases hr : (freshEngine st.nextEngId).setScheduler.runLoop with
      | none => rw [hr] at ha; simp at ha
      | some er =>
        rw [hr] at ha
        simp only [Option.map_some', Option.some.injEq] at ha
        subst ha
        exact Or.inr ⟨er, rfl, runLoop_engId _ er hr⟩
    | stopOp =>
      simp only [applyOp, Simulator.Stop, GetImpl_noneEq st h,
                 Option.some.injEq] at ha
      subst ha
      exact Or.inr ⟨_, rfl, rfl⟩
    | stopWithDelay d =>
      simp only [applyOp, Simulator.StopWithDelay, GetImpl_noneEq st h,
                 Option.some.injEq] at ha
      subst ha
      exact Or.inr ⟨_, rfl, rfl⟩
    | nowOp =>
      simp only [applyOp, Simulator.Now, GetImpl_noneEq st h,
                 Option.some.injEq] at ha
      subst ha
      exact Or.inr ⟨_, rfl, rfl⟩
    | getDelayLeft id =>
      simp only [applyOp, Simulator.GetDelayLeft, GetImpl_noneEq st h,
                 Option.some.injEq] at ha
      subst ha
      exact Or.inr ⟨_, rfl, rfl⟩
    | schedule d cb =>
      simp only [applyOp, Simulator.Schedule, Simulator.DoSchedule,
                 GetImpl_noneEq st h] at ha
      cases hs : (freshEngine st.nextEngId).setScheduler.schedule d cb with
      | none => rw [hs] at ha; simp at ha
      | some p =>
        rw [hs] at ha
        simp only [Option.map_some', Option.some.injEq] at ha
        subst ha
        exact Or.inr ⟨p.1, rfl, schedule_engId _ d cb p hs⟩
    | scheduleNow cb =>
      simp only [applyOp, Simulator.ScheduleNow, Simulator.DoScheduleNow,
                 GetImpl_noneEq st h, Option.some.injEq] at ha
      subst ha
      exact Or.inr ⟨_, rfl, rfl⟩
    | scheduleWithContext ctx d cb =>
      simp only [applyOp, Simulator.ScheduleWithContext, GetImpl_noneEq st h] at ha
      cases hs : (freshEngine st.nextEngId).setScheduler.scheduleWithContext ctx d cb with
      | none => rw [hs] at ha; simp at ha
      | some e2c =>
        rw [hs] at ha
        simp only [Option.map_some', Option.some.injEq] at ha
        subst ha
        exact Or.inr ⟨e2c, rfl, swc_engId _ ctx d cb e2c hs⟩
    | scheduleDestroy cb =>
      simp only [applyOp, Simulator.ScheduleDestroy, Simulator.DoScheduleDestroy,
                 GetImpl_noneEq st h, Option.some.injEq] at ha
      subst ha
      exact Or.inr ⟨_, rfl, rfl⟩
    | remove id =>
      simp only [applyOp, Simulator.Remove, h, Option.some.injEq] at ha
      subst ha
      exact Or.inl rfl
    | cancel id =>
      simp only [applyOp, Simulator.Cancel, h, Option.some.injEq] at ha
      subst ha
      exact Or.inl rfl
    | isExpired id =>
      simp only [applyOp, Simulator.IsExpired, h, Option.some.injEq] at ha
      subst ha
      exact Or.inl rfl
    | getMaximumSimulationTime =>
      simp only [applyOp, Simulator.GetMaximumSimulationTime, GetImpl_noneEq st h,
                 Option.some.injEq] at ha
      subst ha
      exact Or.inr ⟨_, rfl, rfl⟩
    | getContext =>
      simp only [applyOp, Simulator.GetContext, GetImpl_noneEq st h,
                 Option.some.injEq] at ha
      subst ha
      exact Or.inr ⟨_, rfl, rfl⟩
    | getEventCount =>
      simp only [applyOp, Simulator.GetEventCount, GetImpl_noneEq st h,
                 Option.some.injEq] at ha
      subst ha
      exact Or.inr ⟨_, rfl, rfl⟩
    | getSystemId =>
      simp only [applyOp, Simulator.GetSystemId, h, Option.some.injEq] at ha
      subst ha
      exact Or.inl rfl
    | getImplementation =>
      simp only [applyOp, Simulator.GetImplementation, GetImpl_noneEq st h,
                 Option.some.injEq] at ha
      subst ha
      exact Or.inr ⟨_, rfl, rfl⟩

/-- Witness for claim C7 at concrete operations and states. -/
theorem claim_C7_singleton_witness :
    (∃ e2, (Simulator.Stop sampleState).2.impl = some e2 ∧
      e2.engId = (freshEngine 4).engId) ∧
    (initState = initState ∨
      ∃ e2, initState.impl = some e2 ∧ e2.engId = initState.nextEngId) :=
  ⟨claim_C7_singleton.2.1 FacadeOp.stopOp sampleState (freshEngine 4)
      (Simulator.Stop sampleState).2 rfl rfl,
   claim_C7_singleton.2.2 (FacadeOp.cancel { ts := 0, context := 0, uid := 0 })
      initState initState rfl rfl⟩

end ns3
